import Mathlib

/-!
Shallow embedding of the federation activity pipeline of this repository
(ActivityPub-style construction, verification, fan-out and idempotent apply),
translated from the Rust sources under `src/crates/apub` and
`src/crates/api_common`.  Asynchronous database and network calls are modelled
as explicit state passing; each `await?` that can fail either aborts with an
error (`Except`) or, where the intermediate database state matters, is
modelled with an outcome record carrying the state reached so far (the real
code performs no transactional rollback across separate awaits).
-/

namespace Lemmy

/-- A URL, reduced to the parts the pipeline inspects: its domain (host) and
its path.  Matches the use of `url::Url` in the sources, where only
`.domain()` and whole-URL equality are consulted. -/
structure Url where
  domain : String
  path : String
deriving DecidableEq, Repr

/-- The public audience marker `activitystreams_kinds::public()`. -/
def publicUrl : Url := ⟨"www.w3.org", "/ns/activitystreams#Public"⟩

/-- Error cases of `LemmyError` that the embedded fragment can produce. -/
inductive LemmyErr where
  | NotPublic
  | CouldntFindObject
  | SiteBanOnHomeInstance
  | DomainMismatch
  | PersonNotInCommunity
  | NotAModerator
  | NotFound
  | CommunityMismatch
deriving DecidableEq, Repr

/-! ## Deletion pipeline (`src/crates/apub/src/activities/deletion/mod.rs`) -/

/-- The community row fields consulted by `receive_delete_action`:
`id`, `deleted` and `local`. -/
structure DelCommunity where
  id : Nat
  deleted : Bool
  is_local : Bool
deriving DecidableEq, Repr

/-- The post row fields consulted by `receive_delete_action`. -/
structure DelPost where
  id : Nat
  deleted : Bool
deriving DecidableEq, Repr

/-- The comment row fields consulted by `receive_delete_action`. -/
structure DelComment where
  id : Nat
  deleted : Bool
deriving DecidableEq, Repr

/-- The private message row fields consulted by `receive_delete_action`. -/
structure DelPm where
  id : Nat
  deleted : Bool
deriving DecidableEq, Repr

/-- `DeletableObjects`: tagged union over the four deletable content kinds. -/
inductive DeletableObjects where
  | Community (c : DelCommunity)
  | Post (p : DelPost)
  | Comment (c : DelComment)
  | PrivateMessage (m : DelPm)
deriving DecidableEq, Repr

/-- Local storage visible to the deletion pipeline: each store maps an
activity-pub identifier URL to the row, as `read_from_apub_id` does; `persons`
is the actor directory used to dereference the acting moderator. -/
structure DeletionState where
  communities : List (Url × DelCommunity)
  posts : List (Url × DelPost)
  comments : List (Url × DelComment)
  private_messages : List (Url × DelPm)
  persons : List (Url × Nat)
deriving DecidableEq, Repr

/-- `DeletableObjects::read_from_db`: probe the four stores in the order
community, post, comment, private message; first hit wins, otherwise
`diesel::NotFound`. -/
def DeletableObjects.read_from_db (st : DeletionState) (ap_id : Url) :
    Except LemmyErr DeletableObjects :=
  match st.communities.lookup ap_id with
  | some c => .ok (.Community c)
  | none =>
  match st.posts.lookup ap_id with
  | some p => .ok (.Post p)
  | none =>
  match st.comments.lookup ap_id with
  | some c => .ok (.Comment c)
  | none =>
  match st.private_messages.lookup ap_id with
  | some p => .ok (.PrivateMessage p)
  | none => .error .NotFound

/-- Content kinds, used to tag the side effects of the apply layer. -/
inductive ObjKind where
  | Community
  | Post
  | Comment
  | PrivateMessage
deriving DecidableEq, Repr

/-- Observable side effects of `receive_delete_action`: a storage update of
the `deleted` flag, a websocket notification, or the re-entrant outbound
dispatch done for a local community. -/
inductive DelEffect where
  | StorageWrite (kind : ObjKind) (id : Nat) (deleted : Bool)
  | WsMessage (kind : ObjKind) (id : Nat)
  | OutboundDelete (community_id : Nat)
deriving DecidableEq, Repr

/-- Result of one apply: whether it returned `Ok`, the storage state reached
(persisted even on failure, since each await is a separate database call),
and the emitted effects in order. -/
structure DelOutcome where
  success : Bool
  state : DeletionState
  effects : List DelEffect
deriving DecidableEq, Repr

/-- `Community::update` restricted to the `deleted` column. -/
def updateCommunityDeleted (st : DeletionState) (id : Nat) (deleted : Bool) :
    DeletionState :=
  { st with communities :=
      st.communities.map fun uc =>
        if uc.2.id = id then (uc.1, { uc.2 with deleted := deleted }) else uc }

/-- `Post::update` restricted to the `deleted` column. -/
def updatePostDeleted (st : DeletionState) (id : Nat) (deleted : Bool) :
    DeletionState :=
  { st with posts :=
      st.posts.map fun up =>
        if up.2.id = id then (up.1, { up.2 with deleted := deleted }) else up }

/-- `Comment::update` restricted to the `deleted` column. -/
def updateCommentDeleted (st : DeletionState) (id : Nat) (deleted : Bool) :
    DeletionState :=
  { st with comments :=
      st.comments.map fun uc =>
        if uc.2.id = id then (uc.1, { uc.2 with deleted := deleted }) else uc }

/-- `PrivateMessage::update` restricted to the `deleted` column. -/
def updatePmDeleted (st : DeletionState) (id : Nat) (deleted : Bool) :
    DeletionState :=
  { st with private_messages :=
      st.private_messages.map fun um =>
        if um.2.id = id then (um.1, { um.2 with deleted := deleted }) else um }

/-- `receive_delete_action`: write deletion or restoring of an object to the
database and send a websocket message.  Posts and comments are guarded by
`deleted != current`; communities and private messages are updated and
notified unconditionally; a local community first re-enters the outbound
dispatcher (which needs the acting person to dereference). -/
def receive_delete_action (object : Url) (actor : Url) (deleted : Bool)
    (st : DeletionState) : DelOutcome :=
  match DeletableObjects.read_from_db st object with
  | .error _ => ⟨false, st, []⟩
  | .ok (.Community community) =>
    if community.is_local then
      match st.persons.lookup actor with
      | none => ⟨false, st, []⟩
      | some _mod_person =>
        ⟨true, updateCommunityDeleted st community.id deleted,
          [.OutboundDelete community.id,
           .StorageWrite .Community community.id deleted,
           .WsMessage .Community community.id]⟩
    else
      ⟨true, updateCommunityDeleted st community.id deleted,
        [.StorageWrite .Community community.id deleted,
         .WsMessage .Community community.id]⟩
  | .ok (.Post post) =>
    if deleted ≠ post.deleted then
      ⟨true, updatePostDeleted st post.id deleted,
        [.StorageWrite .Post post.id deleted, .WsMessage .Post post.id]⟩
    else ⟨true, st, []⟩
  | .ok (.Comment comment) =>
    if deleted ≠ comment.deleted then
      ⟨true, updateCommentDeleted st comment.id deleted,
        [.StorageWrite .Comment comment.id deleted, .WsMessage .Comment comment.id]⟩
    else ⟨true, st, []⟩
  | .ok (.PrivateMessage pm) =>
    ⟨true, updatePmDeleted st pm.id deleted,
      [.StorageWrite .PrivateMessage pm.id deleted,
       .WsMessage .PrivateMessage pm.id]⟩

/-! ## BlockUser pipeline (`src/crates/apub/src/activities/block/block_user.rs`) -/

/-- A site actor, reduced to its identity URL. -/
structure SiteRec where
  actor_id : Url
deriving DecidableEq, Repr

/-- A community actor: database id, identity URL and the URL of its
followers collection. -/
structure CommunityRec where
  id : Nat
  actor_id : Url
  followers_url : Url
deriving DecidableEq, Repr

/-- `SiteOrCommunity`: the target of a block activity. -/
inductive SiteOrCommunity where
  | Site (s : SiteRec)
  | Community (c : CommunityRec)
deriving DecidableEq, Repr

/-- Modelled from the spec: `SiteOrCommunity::id` (defined in
`activities/block/mod.rs`, outside the provided sources) returns the
identity URL of the target actor. -/
def SiteOrCommunity.id : SiteOrCommunity → Url
  | .Site s => s.actor_id
  | .Community c => c.actor_id

/-- A person row: database id, identity URL, site-ban flag and ban expiry. -/
structure PersonRec where
  id : Nat
  actor_id : Url
  banned : Bool
  ban_expires : Option Nat
deriving DecidableEq, Repr

/-- The `BlockUser` activity value (`protocol/activities/block/block_user.rs`);
timestamps are modelled as `Nat`. -/
structure BlockUser where
  actor : Url
  «to» : List Url
  object : Url
  cc : List Url
  target : Url
  remove_data : Option Bool
  summary : Option String
  id : Url
  audience : Option Url
  expires : Option Nat
deriving DecidableEq, Repr

/-- `BlockUser::new`: build the outbound activity.  The `cc` list is passed
in as the result of `generate_cc` (defined in `activities/block/mod.rs`,
outside the provided sources); everything else follows the constructor
verbatim. -/
def BlockUser.new (target : SiteOrCommunity) (user mod_ : PersonRec)
    (cc : List Url) (remove_data : Option Bool) (reason : Option String)
    (expires : Option Nat) (id : Url) : BlockUser :=
  let audience := match target with
    | .Community c => some c.actor_id
    | .Site _ => none
  { actor := mod_.actor_id
    «to» := [publicUrl]
    object := user.actor_id
    cc := cc
    target := SiteOrCommunity.id target
    remove_data := remove_data
    summary := reason
    id := id
    audience := audience
    expires := expires }

/-- Modelled from the spec: `verify_is_public` (defined in
`activities/mod.rs`, outside the provided sources) checks that the
activity's `to`/`cc` include the public audience marker. -/
def verify_is_public («to» cc : List Url) : Except LemmyErr Unit :=
  if publicUrl ∈ «to» ++ cc then .ok () else .error .NotPublic

/-- Modelled from the spec: `verify_domains_match` (from the federation
library, outside the provided sources) fails unless the two URLs share a
domain. -/
def verify_domains_match (a b : Url) : Except LemmyErr Unit :=
  if a.domain = b.domain then .ok () else .error .DomainMismatch

/-- Environment consulted by `BlockUser::verify`: the configured local
hostname, the actor directory used to dereference the `target` reference,
and oracles for the membership and moderator checks (whose implementations
live outside the provided sources). -/
structure VerifyEnv where
  hostname : String
  targets : List (Url × SiteOrCommunity)
  person_in_community : Url → Nat → Bool
  mod_action_ok : Url → Nat → Bool

/-- `BlockUser::verify`, following the source order: public-audience check,
target dereference, then for a site target the home-instance domain check
followed by the two domain-match checks, and for a community target the
membership and mod-action checks. -/
def BlockUser.verify (self : BlockUser) (env : VerifyEnv) :
    Except LemmyErr Unit :=
  match verify_is_public self.«to» self.cc with
  | .error e => .error e
  | .ok _ =>
  match env.targets.lookup self.target with
  | none => .error .CouldntFindObject
  | some (.Site site) =>
    if env.hostname = self.object.domain then
      .error .SiteBanOnHomeInstance
    else
      match verify_domains_match site.actor_id self.actor with
      | .error e => .error e
      | .ok _ => verify_domains_match site.actor_id self.object
  | some (.Community community) =>
    if env.person_in_community self.actor community.id then
      if env.mod_action_ok self.actor community.id then .ok ()
      else .error .NotAModerator
    else .error .PersonNotInCommunity

/-- A community-scoped ban row (`community_person_ban` join table). -/
structure CommunityPersonBanRow where
  community_id : Nat
  person_id : Nat
  expires : Option Nat
deriving DecidableEq, Repr

/-- A site mod-log row (`ModBanForm`). -/
structure ModBanRow where
  mod_person_id : Nat
  other_person_id : Nat
  reason : Option String
  banned : Option Bool
  expires : Option Nat
deriving DecidableEq, Repr

/-- A community mod-log row (`ModBanFromCommunityForm`). -/
structure ModBanFromCommunityRow where
  mod_person_id : Nat
  other_person_id : Nat
  community_id : Nat
  reason : Option String
  banned : Option Bool
  expires : Option Nat
deriving DecidableEq, Repr

/-- Storage state visible to `BlockUser::receive`.  `unfollow_ok` and
`remove_data_ok` model whether the corresponding collaborator storage
operations succeed on this state. -/
structure BlockState where
  persons : List PersonRec
  targets : List (Url × SiteOrCommunity)
  community_person_bans : List CommunityPersonBanRow
  community_followers : List (Nat × Nat)
  mod_bans : List ModBanRow
  mod_bans_from_community : List ModBanFromCommunityRow
  unfollow_ok : Bool
  remove_data_ok : Bool
deriving DecidableEq, Repr

/-- Content-removal cascades requested via `remove_data`
(`remove_user_data` / `remove_user_data_in_community`), recorded as effects. -/
inductive BlockEffect where
  | RemoveUserData (person_id : Nat)
  | RemoveUserDataInCommunity (community_id : Nat) (person_id : Nat)
deriving DecidableEq, Repr

/-- Result of one `BlockUser::receive`: whether it returned `Ok`, the storage
state reached (writes before a failure persist), and attempted cascades. -/
structure BlockOutcome where
  success : Bool
  state : BlockState
  effects : List BlockEffect
deriving DecidableEq, Repr

/-- `Person::update` with `banned = Some(true)`, `ban_expires = Some(expires)`. -/
def banPersonSite (st : BlockState) (pid : Nat) (expires : Option Nat) :
    BlockState :=
  { st with persons :=
      st.persons.map fun p =>
        if p.id = pid then { p with banned := true, ban_expires := expires }
        else p }

/-- `CommunityPersonBan::ban`: upsert of the ban join-row keyed by
community and person, setting the expiry. -/
def communityPersonBan (st : BlockState) (cid pid : Nat)
    (expires : Option Nat) : BlockState :=
  { st with community_person_bans :=
      ⟨cid, pid, expires⟩ ::
        st.community_person_bans.filter fun r =>
          !(r.community_id == cid && r.person_id == pid) }

/-- `CommunityFollower::unfollow`: delete the follow row; the collaborator
may fail, in which case the state is unchanged. -/
def communityUnfollow (st : BlockState) (cid pid : Nat) : BlockState :=
  if st.unfollow_ok then
    { st with community_followers :=
        st.community_followers.filter fun f => !(f.1 == cid && f.2 == pid) }
  else st

/-- `BlockUser::receive`: dereference the moderator, the blocked person and
the target; then apply the site-scoped or community-scoped ban.  The
community-scoped unfollow is best-effort (`.ok()` in the source); the
content-removal cascade runs only when `remove_data` is `Some(true)` and its
failure aborts before the mod-log write (`await?` in the source). -/
def BlockUser.receive (self : BlockUser) (st : BlockState) : BlockOutcome :=
  let expires := self.expires
  match st.persons.find? (fun p => p.actor_id == self.actor) with
  | none => ⟨false, st, []⟩
  | some mod_person =>
  match st.persons.find? (fun p => p.actor_id == self.object) with
  | none => ⟨false, st, []⟩
  | some blocked_person =>
  match st.targets.lookup self.target with
  | none => ⟨false, st, []⟩
  | some (.Site _site) =>
    let st1 := banPersonSite st blocked_person.id expires
    if self.remove_data.getD false then
      if st1.remove_data_ok then
        ⟨true,
          { st1 with mod_bans :=
              ⟨mod_person.id, blocked_person.id, self.summary, some true,
                expires⟩ :: st1.mod_bans },
          [.RemoveUserData blocked_person.id]⟩
      else
        ⟨false, st1, [.RemoveUserData blocked_person.id]⟩
    else
      ⟨true,
        { st1 with mod_bans :=
            ⟨mod_person.id, blocked_person.id, self.summary, some true,
              expires⟩ :: st1.mod_bans },
        []⟩
  | some (.Community community) =>
    let st1 := communityPersonBan st community.id blocked_person.id expires
    let st2 := communityUnfollow st1 community.id blocked_person.id
    if self.remove_data.getD false then
      if st2.remove_data_ok then
        ⟨true,
          { st2 with mod_bans_from_community :=
              ⟨mod_person.id, blocked_person.id, community.id, self.summary,
                some true, expires⟩ :: st2.mod_bans_from_community },
          [.RemoveUserDataInCommunity community.id blocked_person.id]⟩
      else
        ⟨false, st2, [.RemoveUserDataInCommunity community.id blocked_person.id]⟩
    else
      ⟨true,
        { st2 with mod_bans_from_community :=
            ⟨mod_person.id, blocked_person.id, community.id, self.summary,
              some true, expires⟩ :: st2.mod_bans_from_community },
        []⟩

/-! ## CollectionAdd (`src/crates/apub/src/activities/community/collection_add.rs`) -/

/-- `CollectionType`: which community collection a target URL names. -/
inductive CollectionType where
  | Moderators
  | Featured
deriving DecidableEq, Repr

/-- A post row as consulted by the featured-post branch. -/
structure PostRow where
  id : Nat
  featured_community : Bool
deriving DecidableEq, Repr

/-- A community mod-log row for adding a moderator (`ModAddCommunityForm`). -/
structure ModAddCommunityRow where
  mod_person_id : Nat
  other_person_id : Nat
  community_id : Nat
  removed : Option Bool
deriving DecidableEq, Repr

/-- Storage state visible to `CollectionAdd::receive` and to the
`InCommunity` community resolver: `collections` is
`Community::get_by_collection_url`, `persons` the actor directory,
`community_moderators` the roster join table. -/
structure CollectionState where
  collections : List (Url × (CommunityRec × CollectionType))
  persons : List (Url × Nat)
  posts_by_url : List (Url × PostRow)
  community_moderators : List (Nat × Nat)
  mod_add_community : List ModAddCommunityRow
deriving DecidableEq, Repr

/-- The `CollectionAdd` activity value. -/
structure CollectionAdd where
  actor : Url
  «to» : List Url
  object : Url
  cc : List Url
  target : Url
  id : Url
  audience : Option Url
deriving DecidableEq, Repr

/-- `CommunityModerator::get_person_moderated_communities`: the community ids
the person moderates. -/
def get_person_moderated_communities (st : CollectionState)
    (person_id : Nat) : List Nat :=
  (st.community_moderators.filter fun m => m.2 == person_id).map fun m => m.1

/-- Result of one `CollectionAdd::receive`: whether it returned `Ok` and the
storage state reached (writes before a failure persist). -/
structure CollectionOutcome where
  success : Bool
  state : CollectionState
deriving DecidableEq, Repr

/-- `CollectionAdd::receive`: resolve the target collection; for the
moderators collection dereference the added person, skip both the roster
insert and the mod-log write when they already moderate the community, and
otherwise insert the roster row, dereference the actor and write the mod-log
row; for the featured collection set the post's featured flag. -/
def CollectionAdd.receive (self : CollectionAdd) (st : CollectionState) :
    CollectionOutcome :=
  match st.collections.lookup self.target with
  | none => ⟨false, st⟩
  | some (community, .Moderators) =>
    match st.persons.lookup self.object with
    | none => ⟨false, st⟩
    | some new_mod_id =>
      let moderated := get_person_moderated_communities st new_mod_id
      if community.id ∈ moderated then ⟨true, st⟩
      else
        let st1 := { st with community_moderators :=
          (community.id, new_mod_id) :: st.community_moderators }
        match st1.persons.lookup self.actor with
        | none => ⟨false, st1⟩
        | some actor_id =>
          ⟨true, { st1 with mod_add_community :=
            ⟨actor_id, new_mod_id, community.id, some false⟩ ::
              st1.mod_add_community }⟩
  | some (_community, .Featured) =>
    match st.posts_by_url.lookup self.object with
    | none => ⟨false, st⟩
    | some post =>
      ⟨true, { st with posts_by_url :=
        st.posts_by_url.map fun up =>
          if up.2.id = post.id then (up.1, { up.2 with featured_community := true })
          else up }⟩

/-- Modelled from the spec: `generate_moderators_url` (defined in
`lemmy_api_common`, outside the provided sources) derives the
moderators-collection URL from the community's identity URL. -/
def generate_moderators_url (actor_id : Url) : Url :=
  { actor_id with path := actor_id.path ++ "/moderators" }

/-- The activity value built by `CollectionAdd::send_add_mod`: object is the
added moderator, target the moderators collection, `cc` exactly the community
actor, `audience` the community. -/
def CollectionAdd.send_add_mod_activity (community : CommunityRec)
    (added_mod actor : PersonRec) (id : Url) : CollectionAdd :=
  { actor := actor.actor_id
    «to» := [publicUrl]
    object := added_mod.actor_id
    cc := [community.actor_id]
    target := generate_moderators_url community.actor_id
    id := id
    audience := some community.actor_id }

/-! ## CollectionRemove community resolution
(`src/crates/apub/src/protocol/activities/community/collection_remove.rs`) -/

/-- The `CollectionRemove` activity value. -/
structure CollectionRemove where
  actor : Url
  «to» : List Url
  object : Url
  cc : List Url
  target : Url
  id : Url
  audience : Option Url
deriving DecidableEq, Repr

/-- Modelled from the spec: `verify_community_matches` (defined in
`activities/mod.rs`, outside the provided sources) fails unless the given
audience identifier equals the community's identity URL. -/
def verify_community_matches (audience : Url) (community_actor_id : Url) :
    Except LemmyErr Unit :=
  if audience = community_actor_id then .ok () else .error .CommunityMismatch

/-- `InCommunity for CollectionRemove`: the community is resolved from the
activity's `target` collection URL; when `audience` is present it must match
that community's identity URL, otherwise resolution fails. -/
def CollectionRemove.community (self : CollectionRemove)
    (st : CollectionState) : Except LemmyErr CommunityRec :=
  match st.collections.lookup self.target with
  | none => .error .NotFound
  | some (community, _) =>
    match self.audience with
    | some audience =>
      match verify_community_matches audience community.actor_id with
      | .ok _ => .ok community
      | .error e => .error e
    | none => .ok community

/-! ## Outbound dispatcher (`src/crates/apub/src/activities/community/mod.rs`) -/

/-- The facets of a community actor the dispatcher consults: locality, its
shared inbox, and its follower inboxes (supplied by the collaborator store). -/
structure CommunityActor where
  is_local : Bool
  shared_inbox : Url
  follower_inboxes : List Url
deriving DecidableEq, Repr

/-- The facets of the acting person the dispatcher consults: the inboxes of
the person's own followers (`PersonFollower::list_followers`). -/
structure PersonActor where
  follower_inboxes : List Url
deriving DecidableEq, Repr

/-- `send_activity_in_community`, as the list of inbox deliveries it
performs, in order.  Modelled from the spec where the callees live outside
the provided sources: `send_lemmy_activity` delivers to each listed inbox
and `AnnounceActivity::send` delivers the Announce-wrapped activity to every
follower of the (local) community. -/
def send_activity_in_community (actor : PersonActor)
    (community : CommunityActor) (extra_inboxes : List Url)
    (is_mod_action : Bool) : List Url :=
  extra_inboxes ++
  (if community.is_local then community.follower_inboxes
   else [community.shared_inbox]) ++
  (if is_mod_action then [] else actor.follower_inboxes)

/-! ## Websocket send (`src/crates/api_common/src/websocket/send.rs`) -/

/-- A comment row as consulted by `send_comment_ws_message`. -/
structure CommentRow where
  id : Nat
  content : String
  deleted : Bool
  removed : Bool
deriving DecidableEq, Repr

/-- Modelled from the spec: `blank_out_deleted_or_removed_info` (the
`DeleteableOrRemoveable` impl in `lemmy_db_schema`, outside the provided
sources) blanks the content of the row. -/
def CommentRow.blank_out_deleted_or_removed_info (c : CommentRow) :
    CommentRow :=
  { c with content := "" }

/-- The comment view wrapped into a comment response. -/
structure CommentViewRec where
  comment : CommentRow
deriving DecidableEq, Repr

/-- `CommentResponse`. -/
structure CommentResponseRec where
  comment_view : CommentViewRec
  recipient_ids : List Nat
  form_id : Option String
deriving DecidableEq, Repr

/-- What `send_comment_ws_message` produces: the response handed to the chat
server (`sent`) and the response returned to the caller (`returned`). -/
structure CommentWsResult where
  sent : CommentResponseRec
  returned : CommentResponseRec
deriving DecidableEq, Repr

/-- `send_comment_ws_message`: blank out a deleted or removed comment before
building the response, send it with an empty form id, then return it with
the recipient ids cleared and the form id restored. -/
def send_comment_ws_message (view : CommentViewRec) (form_id : Option String)
    (recipient_ids : List Nat) : CommentWsResult :=
  let view :=
    if view.comment.deleted || view.comment.removed then
      { view with comment := view.comment.blank_out_deleted_or_removed_info }
    else view
  let res : CommentResponseRec := ⟨view, recipient_ids, none⟩
  ⟨res, { res with recipient_ids := [], form_id := form_id }⟩

/-- A private message row as consulted by `send_pm_ws_message`. -/
structure PrivateMessageRow where
  id : Nat
  content : String
  deleted : Bool
deriving DecidableEq, Repr

/-- Modelled from the spec: `blank_out_deleted_or_removed_info` for private
messages (outside the provided sources) blanks the content of the row. -/
def PrivateMessageRow.blank_out_deleted_or_removed_info
    (m : PrivateMessageRow) : PrivateMessageRow :=
  { m with content := "" }

/-- The private message view wrapped into a response; `recipient_is_local`
decides whether a session notification is sent. -/
structure PrivateMessageViewRec where
  private_message : PrivateMessageRow
  recipient_is_local : Bool
  recipient_id : Nat
deriving DecidableEq, Repr

/-- `PrivateMessageResponse`. -/
structure PrivateMessageResponseRec where
  private_message_view : PrivateMessageViewRec
deriving DecidableEq, Repr

/-- What `send_pm_ws_message` produces: the response (also the payload sent
to the local recipient's session, when one exists) and whether it was sent. -/
structure PmWsResult where
  res : PrivateMessageResponseRec
  sent_to_local_recipient : Bool
deriving DecidableEq, Repr

/-- `send_pm_ws_message`: blank out a deleted private message before building
the response, then notify the local recipient if there is one. -/
def send_pm_ws_message (view : PrivateMessageViewRec) : PmWsResult :=
  let view :=
    if view.private_message.deleted then
      { view with private_message :=
          view.private_message.blank_out_deleted_or_removed_info }
    else view
  ⟨⟨view⟩, view.recipient_is_local⟩

/-! ## Theorems -/

/-- Claim C1: for every inbound site-scoped BlockUser activity whose target
(blocked) actor's identity URL has the local instance's configured hostname
as its domain, `BlockUser::verify` returns an error — regardless of the
audience lists and of the outcome of any later check — so a site-level ban
whose target's home instance is the banning instance itself is never
accepted and `receive` is never reached. -/
theorem blockUser_verify_rejects_home_instance_site_ban
    (self : BlockUser) (env : VerifyEnv) (site : SiteRec)
    (htarget : env.targets.lookup self.target = some (.Site site))
    (hdom : self.object.domain = env.hostname) :
    ∃ e, BlockUser.verify self env = .error e := by
  unfold BlockUser.verify
  cases h : verify_is_public self.«to» self.cc with
  | error e => exact ⟨e, by simp [h]⟩
  | ok u =>
    refine ⟨.SiteBanOnHomeInstance, ?_⟩
    simp [h, htarget, hdom]

def siteC1 : SiteRec := ⟨⟨"remote.example", "/"⟩⟩

def actC1 : BlockUser :=
  { actor := ⟨"remote.example", "/u/mod"⟩
    «to» := [publicUrl]
    object := ⟨"local.example", "/u/alice"⟩
    cc := []
    target := ⟨"remote.example", "/"⟩
    remove_data := none
    summary := none
    id := ⟨"remote.example", "/activities/block/1"⟩
    audience := none
    expires := none }

def envC1 : VerifyEnv :=
  { hostname := "local.example"
    targets := [(⟨"remote.example", "/"⟩, .Site siteC1)]
    person_in_community := fun _ _ => true
    mod_action_ok := fun _ _ => true }

/-- Witness for claim C1 at a concrete activity and environment. -/
theorem blockUser_verify_rejects_home_instance_site_ban_witness :
    ∃ e, BlockUser.verify actC1 envC1 = .error e :=
  blockUser_verify_rejects_home_instance_site_ban actC1 envC1 siteC1
    (by decide) rfl

/-- Claim C8: the deletable-object resolver probes local storage for each
content kind in the fixed order community, post, comment, private message,
returns the first kind that matches, and returns NotFound when none of the
four kinds matches. -/
theorem read_from_db_probe_order (st : DeletionState) (u : Url) :
    (∀ c, st.communities.lookup u = some c →
      DeletableObjects.read_from_db st u = .ok (.Community c)) ∧
    (∀ p, st.communities.lookup u = none → st.posts.lookup u = some p →
      DeletableObjects.read_from_db st u = .ok (.Post p)) ∧
    (∀ c, st.communities.lookup u = none → st.posts.lookup u = none →
      st.comments.lookup u = some c →
      DeletableObjects.read_from_db st u = .ok (.Comment c)) ∧
    (∀ m, st.communities.lookup u = none → st.posts.lookup u = none →
      st.comments.lookup u = none → st.private_messages.lookup u = some m →
      DeletableObjects.read_from_db st u = .ok (.PrivateMessage m)) ∧
    (st.communities.lookup u = none → st.posts.lookup u = none →
      st.comments.lookup u = none → st.private_messages.lookup u = none →
      DeletableObjects.read_from_db st u = .error .NotFound) := by
  refine ⟨?_, ?_, ?_, ?_, ?_⟩
  · intro c h1
    simp only [DeletableObjects.read_from_db, h1]
  · intro p h1 h2
    simp only [DeletableObjects.read_from_db, h1, h2]
  · intro c h1 h2 h3
    simp only [DeletableObjects.read_from_db, h1, h2, h3]
  · intro m h1 h2 h3 h4
    simp only [DeletableObjects.read_from_db, h1, h2, h3, h4]
  · intro h1 h2 h3 h4
    simp only [DeletableObjects.read_from_db, h1, h2, h3, h4]

def stC8 : DeletionState := ⟨[], [], [(⟨"a.example", "/comment/1"⟩, ⟨7, false⟩)], [], []⟩

/-- Witness for claim C8: a comment identifier resolves to the comment kind
once the community and post probes miss. -/
theorem read_from_db_probe_order_witness :
    DeletableObjects.read_from_db stC8 ⟨"a.example", "/comment/1"⟩ =
      .ok (.Comment ⟨7, false⟩) :=
  (read_from_db_probe_order stC8 ⟨"a.example", "/comment/1"⟩).2.2.1
    ⟨7, false⟩ rfl rfl (by decide)

/-- Claim C4: dispatching a community-scoped activity when the community is
local with N follower inboxes and M extra inboxes delivers to exactly M + N
inboxes when `is_mod_action` is set (no personal-follower fan-out), and to
M + N + F inboxes otherwise, where F is the number of the acting actor's
follower inboxes. -/
theorem send_activity_in_community_fanout_count (actor : PersonActor)
    (community : CommunityActor) (extra_inboxes : List Url)
    (hlocal : community.is_local = true) :
    (send_activity_in_community actor community extra_inboxes true).length =
      extra_inboxes.length + community.follower_inboxes.length ∧
    (send_activity_in_community actor community extra_inboxes false).length =
      extra_inboxes.length + community.follower_inboxes.length +
        actor.follower_inboxes.length := by
  simp [send_activity_in_community, hlocal, Nat.add_assoc]

def paC4 : PersonActor := ⟨[⟨"pf.example", "/inbox"⟩]⟩

def caC4 : CommunityActor :=
  ⟨true, ⟨"c.example", "/inbox"⟩,
    [⟨"cf1.example", "/inbox"⟩, ⟨"cf2.example", "/inbox"⟩]⟩

def exC4 : List Url := [⟨"newmod.example", "/inbox"⟩]

/-- Witness for claim C4 at a concrete local community (two community
follower inboxes, one extra inbox, one personal follower inbox). -/
theorem send_activity_in_community_fanout_count_witness :
    (send_activity_in_community paC4 caC4 exC4 true).length =
      exC4.length + caC4.follower_inboxes.length ∧
    (send_activity_in_community paC4 caC4 exC4 false).length =
      exC4.length + caC4.follower_inboxes.length +
        paC4.follower_inboxes.length :=
  send_activity_in_community_fanout_count paC4 caC4 exC4 rfl

def communityC5 : CommunityRec :=
  ⟨10, ⟨"a.example", "/c/x"⟩, ⟨"a.example", "/c/x/followers"⟩⟩

def addedC5 : PersonRec := ⟨2, ⟨"b.example", "/u/new"⟩, false, none⟩

def actorC5 : PersonRec := ⟨1, ⟨"a.example", "/u/mod"⟩, false, none⟩

def idC5 : Url := ⟨"a.example", "/activities/add/1"⟩

/-- Claim C5 counterexample: the community-scoped add-moderator builder sets
`cc` to just the community actor — the community's followers-collection
reference is not part of the computed `cc` audience, contradicting the claim
that `cc` is the community actor plus the followers-collection reference. -/
theorem collection_add_cc_lacks_followers_collection :
    (CollectionAdd.send_add_mod_activity communityC5 addedC5 actorC5 idC5).cc =
      [communityC5.actor_id] ∧
    communityC5.followers_url ∉
      (CollectionAdd.send_add_mod_activity communityC5 addedC5 actorC5 idC5).cc := by
  decide

/-- Claim C5 (amended): for every outbound activity built for a
community-scoped action the builder sets `audience` to the community, and for
site-scoped actions `audience` is absent; the add-moderator builder computes
the `cc` audience as exactly the community actor (without the community's
followers-collection reference). -/
theorem activity_builder_audience_and_cc (c : CommunityRec) (s : SiteRec)
    (user mod_ added actor : PersonRec) (cc : List Url)
    (remove_data : Option Bool) (reason : Option String)
    (expires : Option Nat) (id1 id2 id3 : Url) :
    (BlockUser.new (.Community c) user mod_ cc remove_data reason expires
        id1).audience = some c.actor_id ∧
    (BlockUser.new (.Site s) user mod_ cc remove_data reason expires
        id2).audience = none ∧
    (CollectionAdd.send_add_mod_activity c added actor id3).audience =
      some c.actor_id ∧
    (CollectionAdd.send_add_mod_activity c added actor id3).cc =
      [c.actor_id] :=
  ⟨rfl, rfl, rfl, rfl⟩

/-- Claim C9: the content of a deleted or removed comment, and of a deleted
private message, is blanked out before the corresponding notification
response is built, so the payload handed to local sessions carries blank
content. -/
theorem ws_messages_blank_deleted_content (cv : CommentViewRec)
    (form_id : Option String) (recipient_ids : List Nat)
    (pv : PrivateMessageViewRec)
    (hc : cv.comment.deleted = true ∨ cv.comment.removed = true)
    (hp : pv.private_message.deleted = true) :
    (send_comment_ws_message cv form_id
        recipient_ids).sent.comment_view.comment.content = "" ∧
    (send_pm_ws_message
        pv).res.private_message_view.private_message.content = "" := by
  constructor
  · rcases hc with h | h <;>
      simp [send_comment_ws_message,
        CommentRow.blank_out_deleted_or_removed_info, h]
  · simp [send_pm_ws_message,
      PrivateMessageRow.blank_out_deleted_or_removed_info, hp]

def cvC9 : CommentViewRec := ⟨⟨3, "secret comment", true, false⟩⟩

def pvC9 : PrivateMessageViewRec := ⟨⟨4, "secret message", true⟩, true, 9⟩

/-- Witness for claim C9 at a concrete deleted comment and deleted private
message. -/
theorem ws_messages_blank_deleted_content_witness :
    (send_comment_ws_message cvC9 (some "f1")
        [5]).sent.comment_view.comment.content = "" ∧
    (send_pm_ws_message
        pvC9).res.private_message_view.private_message.content = "" :=
  ws_messages_blank_deleted_content cvC9 (some "f1") [5] pvC9
    (Or.inl rfl) rfl

/-- Claim C10: for every CollectionRemove activity, the community used for
verification and apply is the one resolved from the activity's target
collection URL, and whenever the optional `audience` field names a different
community than the one resolved from `target`, resolution fails with an
error — `audience` can never redirect the action to another community. -/
theorem collection_remove_community_resolved_from_target
    (self : CollectionRemove) (st : CollectionState)
    (community : CommunityRec) (ct : CollectionType)
    (htarget : st.collections.lookup self.target = some (community, ct)) :
    (∀ c, CollectionRemove.community self st = .ok c → c = community) ∧
    (∀ audience, self.audience = some audience →
      audience ≠ community.actor_id →
      CollectionRemove.community self st = .error .CommunityMismatch) := by
  constructor
  · intro c hc
    unfold CollectionRemove.community verify_community_matches at hc
    rw [htarget] at hc
    cases haud : self.audience with
    | none =>
      rw [haud] at hc
      simp at hc
      exact hc.symm
    | some a =>
      rw [haud] at hc
      by_cases h : a = community.actor_id
      · simp [h] at hc
        exact hc.symm
      · simp [h] at hc
  · intro a haud hne
    unfold CollectionRemove.community verify_community_matches
    rw [htarget, haud]
    simp [hne]

def stC10 : CollectionState :=
  ⟨[(⟨"a.example", "/c/x/moderators"⟩,
      (⟨10, ⟨"a.example", "/c/x"⟩, ⟨"a.example", "/c/x/followers"⟩⟩,
        .Moderators))], [], [], [], []⟩

def remC10 : CollectionRemove :=
  { actor := ⟨"a.example", "/u/mod"⟩
    «to» := [publicUrl]
    object := ⟨"b.example", "/u/old"⟩
    cc := []
    target := ⟨"a.example", "/c/x/moderators"⟩
    id := ⟨"a.example", "/activities/remove/1"⟩
    audience := some ⟨"b.example", "/c/other"⟩ }

/-- Witness for claim C10: an audience naming a different community than the
target's community makes resolution fail. -/
theorem collection_remove_community_resolved_from_target_witness :
    CollectionRemove.community remC10 stC10 = .error .CommunityMismatch :=
  (collection_remove_community_resolved_from_target remC10 stC10
      ⟨10, ⟨"a.example", "/c/x"⟩, ⟨"a.example", "/c/x/followers"⟩⟩
      .Moderators (by decide)).2
    ⟨"b.example", "/c/other"⟩ rfl (by decide)

def uC2 : Url := ⟨"a.example", "/pm/5"⟩

def stC2 : DeletionState := ⟨[], [], [], [(uC2, ⟨5, true⟩)], []⟩

/-- Claim C2 counterexample: applying a delete to a private message that is
already `deleted = true` still performs a storage write and still emits a
notification — the second application of the same delete is not a no-op for
private messages, contradicting the claim that over every object kind the
apply mutates and notifies only when the requested value differs. -/
theorem receive_delete_action_not_noop_for_private_message :
    (receive_delete_action uC2 ⟨"a.example", "/u/x"⟩ true stC2).effects =
      [.StorageWrite .PrivateMessage 5 true, .WsMessage .PrivateMessage 5] ∧
    (receive_delete_action uC2 ⟨"a.example", "/u/x"⟩ true stC2).effects ≠
      [] := by
  decide

/-- Claim C2 (amended): for posts and comments, `receive_delete_action`
mutates storage and emits a notification only when the requested `deleted`
value differs from the object's current flag — applying the same post or
comment delete a second time performs no storage write and emits no
notification; community and private-message deletes, however, update storage
and emit a notification unconditionally. -/
theorem receive_delete_action_idempotence_guards (st : DeletionState)
    (u actor : Url) (b : Bool) :
    (∀ p, st.communities.lookup u = none → st.posts.lookup u = some p →
      p.deleted = b → receive_delete_action u actor b st = ⟨true, st, []⟩) ∧
    (∀ p, st.communities.lookup u = none → st.posts.lookup u = some p →
      p.deleted ≠ b → (receive_delete_action u actor b st).effects =
        [.StorageWrite .Post p.id b, .WsMessage .Post p.id]) ∧
    (∀ c, st.communities.lookup u = none → st.posts.lookup u = none →
      st.comments.lookup u = some c → c.deleted = b →
      receive_delete_action u actor b st = ⟨true, st, []⟩) ∧
    (∀ m, st.communities.lookup u = none → st.posts.lookup u = none →
      st.comments.lookup u = none → st.private_messages.lookup u = some m →
      (receive_delete_action u actor b st).effects =
        [.StorageWrite .PrivateMessage m.id b,
         .WsMessage .PrivateMessage m.id]) ∧
    (∀ c, st.communities.lookup u = some c → c.is_local = false →
      (receive_delete_action u actor b st).effects =
        [.StorageWrite .Community c.id b, .WsMessage .Community c.id]) := by
  refine ⟨?_, ?_, ?_, ?_, ?_⟩
  · intro p h1 h2 h3
    simp [receive_delete_action, DeletableObjects.read_from_db, h1, h2, h3]
  · intro p h1 h2 h3
    simp only [receive_delete_action, DeletableObjects.read_from_db, h1, h2]
    rw [if_pos (Ne.symm h3)]
  · intro c h1 h2 h3 h4
    simp [receive_delete_action, DeletableObjects.read_from_db, h1, h2, h3, h4]
  · intro m h1 h2 h3 h4
    simp only [receive_delete_action, DeletableObjects.read_from_db,
      h1, h2, h3, h4]
  · intro c h1 h2
    simp only [receive_delete_action, DeletableObjects.read_from_db, h1, h2,
      Bool.false_eq_true, if_false]

def stC2post : DeletionState := ⟨[], [(⟨"a.example", "/post/123"⟩, ⟨123, true⟩)], [], [], []⟩

/-- Witness for claim C2 (amended): a second delete of an already-deleted
post is a no-op with no effects. -/
theorem receive_delete_action_idempotence_guards_witness :
    receive_delete_action ⟨"a.example", "/post/123"⟩ ⟨"a.example", "/u/x"⟩
      true stC2post = ⟨true, stC2post, []⟩ :=
  (receive_delete_action_idempotence_guards stC2post
      ⟨"a.example", "/post/123"⟩ ⟨"a.example", "/u/x"⟩ true).1
    ⟨123, true⟩ rfl (by decide) rfl

/-- Membership in the list of moderated communities coincides with
membership of the (community, person) pair in the roster join table. -/
theorem mem_get_person_moderated_communities (st : CollectionState)
    (pid cid : Nat) :
    cid ∈ get_person_moderated_communities st pid ↔
      (cid, pid) ∈ st.community_moderators := by
  simp only [get_person_moderated_communities, List.mem_map, List.mem_filter]
  constructor
  · rintro ⟨m, ⟨hmem, hb⟩, ha⟩
    have hb' : m.2 = pid := by simpa using hb
    have hm : m = (cid, pid) := by
      cases m
      simp_all
    rwa [hm] at hmem
  · intro hmem
    exact ⟨(cid, pid), ⟨hmem, by simp⟩, rfl⟩

/-- Number of roster rows for a given community and person. -/
def rosterCount (st : CollectionState) (cid pid : Nat) : Nat :=
  (st.community_moderators.filter fun m => m.1 == cid && m.2 == pid).length

/-- Number of add-moderator mod-log rows for a given community and person. -/
def modAddCount (st : CollectionState) (cid pid : Nat) : Nat :=
  (st.mod_add_community.filter fun r =>
    r.community_id == cid && r.other_person_id == pid).length

/-- Claim C3: applying a CollectionAdd for the moderators collection is
idempotent — if the target person is already in the community's moderator
set, both the roster insert and the mod-log write are skipped and the apply
succeeds (the state is returned unchanged); applying the same add-moderator
activity twice succeeds both times, the second application leaves the state
of the first unchanged, and starting from no roster row the pair ends up
with exactly one roster row and at most one additional mod-log entry. -/
theorem collection_add_moderator_idempotent (self : CollectionAdd)
    (st : CollectionState) (community : CommunityRec)
    (new_mod_id actor_id : Nat)
    (htarget : st.collections.lookup self.target =
      some (community, .Moderators))
    (hobj : st.persons.lookup self.object = some new_mod_id)
    (hactor : st.persons.lookup self.actor = some actor_id) :
    ((community.id, new_mod_id) ∈ st.community_moderators →
      CollectionAdd.receive self st = ⟨true, st⟩) ∧
    (CollectionAdd.receive self st).success = true ∧
    CollectionAdd.receive self (CollectionAdd.receive self st).state =
      ⟨true, (CollectionAdd.receive self st).state⟩ ∧
    (rosterCount st community.id new_mod_id = 0 →
      rosterCount (CollectionAdd.receive self st).state community.id
          new_mod_id = 1 ∧
      modAddCount (CollectionAdd.receive self st).state community.id
          new_mod_id ≤ modAddCount st community.id new_mod_id + 1) := by
  by_cases hmem : (community.id, new_mod_id) ∈ st.community_moderators
  · have hin : community.id ∈ get_person_moderated_communities st new_mod_id :=
      (mem_get_person_moderated_communities st new_mod_id community.id).mpr hmem
    have hrec : CollectionAdd.receive self st = ⟨true, st⟩ := by
      simp only [CollectionAdd.receive, htarget, hobj]
      rw [if_pos hin]
    refine ⟨fun _ => hrec, by rw [hrec], by rw [hrec]; exact hrec, ?_⟩
    intro hcount
    exfalso
    have : (community.id, new_mod_id) ∈
        st.community_moderators.filter fun m =>
          m.1 == community.id && m.2 == new_mod_id := by
      simp [List.mem_filter, hmem]
    rw [rosterCount, List.length_eq_zero] at hcount
    rw [hcount] at this
    exact absurd this (List.not_mem_nil _)
  · have hin : community.id ∉ get_person_moderated_communities st new_mod_id :=
      fun h => hmem ((mem_get_person_moderated_communities st new_mod_id
        community.id).mp h)
    have hrec : CollectionAdd.receive self st =
        ⟨true,
          { st with
            community_moderators :=
              (community.id, new_mod_id) :: st.community_moderators
            mod_add_community :=
              ⟨actor_id, new_mod_id, community.id, some false⟩ ::
                st.mod_add_community }⟩ := by
      simp only [CollectionAdd.receive, htarget, hobj]
      rw [if_neg hin]
      simp only [hactor]
    have hmem2 : (community.id, new_mod_id) ∈
        (CollectionAdd.receive self st).state.community_moderators := by
      rw [hrec]
      exact List.mem_cons_self _ _
    have hrec2 : CollectionAdd.receive self
        (CollectionAdd.receive self st).state =
        ⟨true, (CollectionAdd.receive self st).state⟩ := by
      have htarget2 : (CollectionAdd.receive self st).state.collections.lookup
          self.target = some (community, .Moderators) := by rw [hrec]; exact htarget
      have hobj2 : (CollectionAdd.receive self st).state.persons.lookup
          self.object = some new_mod_id := by rw [hrec]; exact hobj
      have hin2 : community.id ∈ get_person_moderated_communities
          (CollectionAdd.receive self st).state new_mod_id :=
        (mem_get_person_moderated_communities _ new_mod_id
          community.id).mpr hmem2
      generalize hgen : (CollectionAdd.receive self st).state = st1
        at htarget2 hobj2 hin2 ⊢
      simp only [CollectionAdd.receive, htarget2, hobj2]
      rw [if_pos hin2]
    refine ⟨fun h => absurd h hmem, by rw [hrec], hrec2, ?_⟩
    intro hcount
    rw [rosterCount] at hcount
    constructor
    · rw [hrec, rosterCount]
      simp [List.filter_cons, hcount]
    · rw [hrec]
      simp only [modAddCount, List.filter_cons]
      split <;> simp [Nat.le_succ]

def stC3 : CollectionState :=
  ⟨[(⟨"a.example", "/c/x/moderators"⟩,
      (⟨10, ⟨"a.example", "/c/x"⟩, ⟨"a.example", "/c/x/followers"⟩⟩,
        .Moderators))],
    [(⟨"b.example", "/u/new"⟩, 2), (⟨"a.example", "/u/mod"⟩, 1)],
    [], [], []⟩

def addC3 : CollectionAdd :=
  { actor := ⟨"a.example", "/u/mod"⟩
    «to» := [publicUrl]
    object := ⟨"b.example", "/u/new"⟩
    cc := [⟨"a.example", "/c/x"⟩]
    target := ⟨"a.example", "/c/x/moderators"⟩
    id := ⟨"a.example", "/activities/add/2"⟩
    audience := some ⟨"a.example", "/c/x"⟩ }

/-- Witness for claim C3: from an empty roster, applying the add-moderator
activity twice succeeds, the second application changes nothing, and exactly
one roster row and at most one mod-log entry exist for the pair. -/
theorem collection_add_moderator_idempotent_witness :
    (CollectionAdd.receive addC3 stC3).success = true ∧
    CollectionAdd.receive addC3 (CollectionAdd.receive addC3 stC3).state =
      ⟨true, (CollectionAdd.receive addC3 stC3).state⟩ ∧
    rosterCount (CollectionAdd.receive addC3 stC3).state 10 2 = 1 ∧
    modAddCount (CollectionAdd.receive addC3 stC3).state 10 2 ≤
      modAddCount stC3 10 2 + 1 := by
  obtain ⟨-, h1, h2, h3⟩ := collection_add_moderator_idempotent addC3 stC3
    ⟨10, ⟨"a.example", "/c/x"⟩, ⟨"a.example", "/c/x/followers"⟩⟩ 2 1
    (by decide) (by decide) (by decide)
  obtain ⟨h4, h5⟩ := h3 (by decide)
  exact ⟨h1, h2, h4, h5⟩

/-- After `Person::update` with the ban form, every person row with the
banned person's id carries the banned flag and the requested expiry. -/
theorem banPersonSite_mem (st : BlockState) (pid : Nat) (e : Option Nat) :
    ∀ p ∈ (banPersonSite st pid e).persons, p.id = pid →
      p.banned = true ∧ p.ban_expires = e := by
  intro p hp hid
  simp only [banPersonSite, List.mem_map] at hp
  obtain ⟨q, hq, hqp⟩ := hp
  by_cases h : q.id = pid
  · rw [if_pos h] at hqp
    rw [← hqp]
    exact ⟨rfl, rfl⟩
  · rw [if_neg h] at hqp
    rw [← hqp] at hid
    exact absurd hid h

/-- The best-effort unfollow leaves the ban join table unchanged. -/
theorem communityUnfollow_bans (s : BlockState) (cid pid : Nat) :
    (communityUnfollow s cid pid).community_person_bans =
      s.community_person_bans := by
  unfold communityUnfollow
  split <;> rfl

/-- When the unfollow storage operation succeeds, the person no longer
follows the community. -/
theorem communityUnfollow_not_following (s : BlockState) (cid pid : Nat)
    (h : s.unfollow_ok = true) :
    (cid, pid) ∉ (communityUnfollow s cid pid).community_followers := by
  unfold communityUnfollow
  rw [if_pos h]
  intro hmem
  have hpred := (List.mem_filter.mp hmem).2
  simp at hpred

/-- When the unfollow storage operation fails, the follower table is left
unchanged (and, in the source, the error is discarded with `.ok()`). -/
theorem communityUnfollow_skip (s : BlockState) (cid pid : Nat)
    (h : s.unfollow_ok = false) :
    (communityUnfollow s cid pid).community_followers =
      s.community_followers := by
  unfold communityUnfollow
  rw [h]
  simp

/-- Claim C7 (amended): applying a site-scoped ban sets the banned person's
banned flag and ban expiry, and the content-removal cascade runs only when
the activity's `remove_data` field is explicitly true; a site mod-log row is
written when the cascade is not requested or succeeds — but when a requested
cascade fails, the apply aborts with an error after setting the ban flag and
no mod-log row is written. -/
theorem block_user_receive_site_ban (self : BlockUser) (st : BlockState)
    (mp bp : PersonRec) (site : SiteRec)
    (hmod : st.persons.find? (fun p => p.actor_id == self.actor) = some mp)
    (hobj : st.persons.find? (fun p => p.actor_id == self.object) = some bp)
    (htarget : st.targets.lookup self.target = some (.Site site))
    (hcascade : self.remove_data = some true → st.remove_data_ok = true) :
    (BlockUser.receive self st).success = true ∧
    (∀ p ∈ (BlockUser.receive self st).state.persons, p.id = bp.id →
      p.banned = true ∧ p.ban_expires = self.expires) ∧
    (BlockEffect.RemoveUserData bp.id ∈ (BlockUser.receive self st).effects ↔
      self.remove_data = some true) ∧
    ModBanRow.mk mp.id bp.id self.summary (some true) self.expires ∈
      (BlockUser.receive self st).state.mod_bans := by
  cases hrd : self.remove_data with
  | none =>
    have hrec : BlockUser.receive self st =
        ⟨true,
          { banPersonSite st bp.id self.expires with
              mod_bans :=
                ⟨mp.id, bp.id, self.summary, some true, self.expires⟩ ::
                  (banPersonSite st bp.id self.expires).mod_bans },
          []⟩ := by
      simp [BlockUser.receive, hmod, hobj, htarget, hrd]
    rw [hrec]
    exact ⟨rfl, fun p hp hid => banPersonSite_mem st bp.id self.expires p hp hid,
      by simp, List.mem_cons_self _ _⟩
  | some b =>
    cases b with
    | false =>
      have hrec : BlockUser.receive self st =
          ⟨true,
            { banPersonSite st bp.id self.expires with
                mod_bans :=
                  ⟨mp.id, bp.id, self.summary, some true, self.expires⟩ ::
                    (banPersonSite st bp.id self.expires).mod_bans },
            []⟩ := by
        simp [BlockUser.receive, hmod, hobj, htarget, hrd]
      rw [hrec]
      exact ⟨rfl, fun p hp hid => banPersonSite_mem st bp.id self.expires p hp hid,
        by simp, List.mem_cons_self _ _⟩
    | true =>
      have hok : (banPersonSite st bp.id self.expires).remove_data_ok = true :=
        hcascade hrd
      have hrec : BlockUser.receive self st =
          ⟨true,
            { banPersonSite st bp.id self.expires with
                mod_bans :=
                  ⟨mp.id, bp.id, self.summary, some true, self.expires⟩ ::
                    (banPersonSite st bp.id self.expires).mod_bans },
            [.RemoveUserData bp.id]⟩ := by
        simp [BlockUser.receive, hmod, hobj, htarget, hrd, hok]
      rw [hrec]
      exact ⟨rfl, fun p hp hid => banPersonSite_mem st bp.id self.expires p hp hid,
        by simp, List.mem_cons_self _ _⟩

def mpRec : PersonRec := ⟨1, ⟨"remote.example", "/u/admin"⟩, false, none⟩

def bpRec : PersonRec := ⟨2, ⟨"remote.example", "/u/spammer"⟩, false, none⟩

def siteTargetUrl : Url := ⟨"remote.example", "/"⟩

def actC7 : BlockUser :=
  { actor := ⟨"remote.example", "/u/admin"⟩
    «to» := [publicUrl]
    object := ⟨"remote.example", "/u/spammer"⟩
    cc := []
    target := siteTargetUrl
    remove_data := none
    summary := some "spam"
    id := ⟨"remote.example", "/activities/block/7"⟩
    audience := none
    expires := some 100 }

def stC7 : BlockState :=
  { persons := [mpRec, bpRec]
    targets := [(siteTargetUrl, .Site ⟨siteTargetUrl⟩)]
    community_person_bans := []
    community_followers := []
    mod_bans := []
    mod_bans_from_community := []
    unfollow_ok := true
    remove_data_ok := true }

/-- Witness for claim C7 (amended) at a concrete site ban without a cascade. -/
theorem block_user_receive_site_ban_witness :
    (BlockUser.receive actC7 stC7).success = true ∧
    (∀ p ∈ (BlockUser.receive actC7 stC7).state.persons, p.id = bpRec.id →
      p.banned = true ∧ p.ban_expires = actC7.expires) ∧
    (BlockEffect.RemoveUserData bpRec.id ∈
        (BlockUser.receive actC7 stC7).effects ↔
      actC7.remove_data = some true) ∧
    ModBanRow.mk mpRec.id bpRec.id actC7.summary (some true) actC7.expires ∈
      (BlockUser.receive actC7 stC7).state.mod_bans :=
  block_user_receive_site_ban actC7 stC7 mpRec bpRec ⟨siteTargetUrl⟩
    (by decide) (by decide) (by decide) (by decide)

def actC7bad : BlockUser :=
  { actC7 with remove_data := some true
               id := ⟨"remote.example", "/activities/block/8"⟩ }

def stC7bad : BlockState := { stC7 with remove_data_ok := false }

/-- Claim C7 counterexample: when the requested content-removal cascade
fails, the apply returns an error and no site mod-log row is written, even
though the person's banned flag has already been set — so the mod-log row is
not written "regardless of whether the cascade succeeded". -/
theorem block_user_site_cascade_failure_skips_modlog :
    (BlockUser.receive actC7bad stC7bad).success = false ∧
    (BlockUser.receive actC7bad stC7bad).state.mod_bans = [] ∧
    ∀ p ∈ (BlockUser.receive actC7bad stC7bad).state.persons,
      p.id = 2 → p.banned = true := by
  decide

/-- Claim C6 (amended): applying a community-scoped ban inserts/updates the
ban join-row with the given expiry and writes a community mod-log row; the
forced unfollow is best-effort — the apply succeeds whether or not the
unfollow storage operation succeeds — and when the unfollow operation
succeeds the banned person is not a following member of that community
afterward, while when it fails the follower table is left unchanged (so the
person may still be following). -/
theorem block_user_receive_community_ban (self : BlockUser) (st : BlockState)
    (mp bp : PersonRec) (community : CommunityRec)
    (hmod : st.persons.find? (fun p => p.actor_id == self.actor) = some mp)
    (hobj : st.persons.find? (fun p => p.actor_id == self.object) = some bp)
    (htarget : st.targets.lookup self.target = some (.Community community))
    (hcascade : self.remove_data = some true → st.remove_data_ok = true) :
    (BlockUser.receive self st).success = true ∧
    CommunityPersonBanRow.mk community.id bp.id self.expires ∈
      (BlockUser.receive self st).state.community_person_bans ∧
    ModBanFromCommunityRow.mk mp.id bp.id community.id self.summary
        (some true) self.expires ∈
      (BlockUser.receive self st).state.mod_bans_from_community ∧
    (st.unfollow_ok = true → (community.id, bp.id) ∉
      (BlockUser.receive self st).state.community_followers) ∧
    (st.unfollow_ok = false →
      (BlockUser.receive self st).state.community_followers =
        st.community_followers) := by
  have hbans : CommunityPersonBanRow.mk community.id bp.id self.expires ∈
      (communityUnfollow (communityPersonBan st community.id bp.id self.expires)
        community.id bp.id).community_person_bans := by
    rw [communityUnfollow_bans]
    exact List.mem_cons_self _ _
  have hnotfollow : st.unfollow_ok = true → (community.id, bp.id) ∉
      (communityUnfollow (communityPersonBan st community.id bp.id self.expires)
        community.id bp.id).community_followers :=
    fun h => communityUnfollow_not_following _ community.id bp.id h
  have hskip : st.unfollow_ok = false →
      (communityUnfollow (communityPersonBan st community.id bp.id self.expires)
        community.id bp.id).community_followers = st.community_followers :=
    fun h => communityUnfollow_skip _ community.id bp.id h
  cases hrd : self.remove_data with
  | none =>
    have hrec : BlockUser.receive self st =
        ⟨true,
          { communityUnfollow
              (communityPersonBan st community.id bp.id self.expires)
              community.id bp.id with
            mod_bans_from_community :=
              ⟨mp.id, bp.id, community.id, self.summary, some true,
                self.expires⟩ ::
                (communityUnfollow
                  (communityPersonBan st community.id bp.id self.expires)
                  community.id bp.id).mod_bans_from_community },
          []⟩ := by
      simp [BlockUser.receive, hmod, hobj, htarget, hrd]
    rw [hrec]
    exact ⟨rfl, hbans, List.mem_cons_self _ _, hnotfollow, hskip⟩
  | some b =>
    cases b with
    | false =>
      have hrec : BlockUser.receive self st =
          ⟨true,
            { communityUnfollow
                (communityPersonBan st community.id bp.id self.expires)
                community.id bp.id with
              mod_bans_from_community :=
                ⟨mp.id, bp.id, community.id, self.summary, some true,
                  self.expires⟩ ::
                  (communityUnfollow
                    (communityPersonBan st community.id bp.id self.expires)
                    community.id bp.id).mod_bans_from_community },
            []⟩ := by
        simp [BlockUser.receive, hmod, hobj, htarget, hrd]
      rw [hrec]
      exact ⟨rfl, hbans, List.mem_cons_self _ _, hnotfollow, hskip⟩
    | true =>
      have hok : (communityUnfollow
          (communityPersonBan st community.id bp.id self.expires)
          community.id bp.id).remove_data_ok = true := by
        have h1 : (communityUnfollow
            (communityPersonBan st community.id bp.id self.expires)
            community.id bp.id).remove_data_ok =
            st.remove_data_ok := by
          unfold communityUnfollow
          split <;> rfl
        rw [h1]
        exact hcascade hrd
      have hrec : BlockUser.receive self st =
          ⟨true,
            { communityUnfollow
                (communityPersonBan st community.id bp.id self.expires)
                community.id bp.id with
              mod_bans_from_community :=
                ⟨mp.id, bp.id, community.id, self.summary, some true,
                  self.expires⟩ ::
                  (communityUnfollow
                    (communityPersonBan st community.id bp.id self.expires)
                    community.id bp.id).mod_bans_from_community },
            [.RemoveUserDataInCommunity community.id bp.id]⟩ := by
        simp [BlockUser.receive, hmod, hobj, htarget, hrd, hok]
      rw [hrec]
      exact ⟨rfl, hbans, List.mem_cons_self _ _, hnotfollow, hskip⟩

def communityC6 : CommunityRec :=
  ⟨10, ⟨"a.example", "/c/x"⟩, ⟨"a.example", "/c/x/followers"⟩⟩

def cTargetUrl : Url := ⟨"a.example", "/c/x"⟩

def actC6 : BlockUser :=
  { actor := ⟨"remote.example", "/u/admin"⟩
    «to» := [publicUrl]
    object := ⟨"remote.example", "/u/spammer"⟩
    cc := [cTargetUrl]
    target := cTargetUrl
    remove_data := none
    summary := some "spam"
    id := ⟨"remote.example", "/activities/block/9"⟩
    audience := some cTargetUrl
    expires := none }

def stC6 : BlockState :=
  { persons := [mpRec, bpRec]
    targets := [(cTargetUrl, .Community communityC6)]
    community_person_bans := []
    community_followers := [(10, 2)]
    mod_bans := []
    mod_bans_from_community := []
    unfollow_ok := true
    remove_data_ok := true }

/-- Witness for claim C6 (amended) at a concrete community ban where the
unfollow succeeds and the person stops following. -/
theorem block_user_receive_community_ban_witness :
    (BlockUser.receive actC6 stC6).success = true ∧
    CommunityPersonBanRow.mk communityC6.id bpRec.id actC6.expires ∈
      (BlockUser.receive actC6 stC6).state.community_person_bans ∧
    ModBanFromCommunityRow.mk mpRec.id bpRec.id communityC6.id actC6.summary
        (some true) actC6.expires ∈
      (BlockUser.receive actC6 stC6).state.mod_bans_from_community ∧
    (stC6.unfollow_ok = true → (communityC6.id, bpRec.id) ∉
      (BlockUser.receive actC6 stC6).state.community_followers) ∧
    (stC6.unfollow_ok = false →
      (BlockUser.receive actC6 stC6).state.community_followers =
        stC6.community_followers) :=
  block_user_receive_community_ban actC6 stC6 mpRec bpRec communityC6
    (by decide) (by decide) (by decide) (by decide)

def stC6bad : BlockState := { stC6 with unfollow_ok := false }

/-- Claim C6 counterexample: when the best-effort unfollow fails, the
community ban still succeeds and the mod-log row is still written, but the
banned person is still a following member of the community afterward — the
claimed invariant "after every successful community ban the banned person is
not a following member" does not hold. -/
theorem block_user_community_ban_unfollow_failure_keeps_follow :
    (BlockUser.receive actC6 stC6bad).success = true ∧
    (10, 2) ∈ (BlockUser.receive actC6 stC6bad).state.community_followers ∧
    (BlockUser.receive actC6 stC6bad).state.mod_bans_from_community ≠ [] := by
  decide

end Lemmy
